import Mathlib

/-! Verification of the Safety-Zone Classification and Nearby-Place Aggregation
core of the abhaya-app repository.

The embedded code lives in three places of the repository:

* the NearbySafePlaces React component (stored inside
  supabase/functions/send-broadcast-message/index.ts): the getDistance haversine,
  calculateZoneStatus, searchWithGoogleService and findNearbyPlaces;
* the GoogleMap component (src/components/GoogleMap.tsx): getCurrentLocation and
  its own getDistance copy;
* the Dashboard page: getDistance (km variant), checkSafetyZone,
  handleNearestPlacesUpdate and handleLocationChange.

Modelling conventions:

* JavaScript numbers that only ever hold provider data and arithmetic on
  literals are modelled as rationals, so that the list pipeline
  (merge, deduplicate, sort, truncate) is executable; the trigonometric
  haversine distance functions are modelled separately over the reals.
* The JS value Infinity used as the initial accumulator of the minimum scans is
  modelled as the top element of WithTop.
* The JS truthiness test on place.distance is modelled as distance being nonzero
  (the distance field is always a number once a place has been built by the
  aggregator, so undefined does not arise and falsiness means exactly 0).
* The asynchronous per-keyword provider callbacks of searchWithGoogleService are
  modelled by the list of their payloads in completion order
  (none for a non-OK status); the promise resolution value is a pure function
  of that list, computed at the moment the completion counter reaches
  totalSearches.
* Array.prototype.sort with the comparator (a, b) => (a.distance || 0) -
  (b.distance || 0) is a stable sort by the distance key (note a.distance || 0
  equals a.distance for every number except 0, where both are 0, so the key is
  the distance itself); it is modelled by insertion sort, which is stable.
-/

/-- A latitude/longitude pair as handled by the components (rational model). -/
structure Coord where
  lat : ℚ
  lng : ℚ
deriving DecidableEq

/-- The SafePlace record of the NearbySafePlaces component. The distance field
is required in the model: every SafePlace built by searchWithGoogleService is
annotated with a (haversine) distance in meters at construction. -/
structure SafePlace where
  id : String
  name : String
  type : String
  address : String
  phone : Option String
  distance : ℚ
  lat : ℚ
  lng : ℚ
  rating : Option ℚ
  isOpen : Option Bool
deriving DecidableEq

/-- One entry of the searchTypes array of searchWithGoogleService. -/
structure SearchType where
  type : String
  keywords : List String
deriving DecidableEq

/-- The fixed category/keyword fan-out of searchWithGoogleService. -/
def searchTypes : List SearchType :=
  [⟨"police", ["police station", "police"]⟩,
   ⟨"hospital", ["hospital", "emergency", "medical center"]⟩,
   ⟨"government", ["government office", "collectorate", "fire station"]⟩]

/-- The join threshold of searchWithGoogleService:
searchTypes.length * searchTypes[0].keywords.length. -/
def totalSearches : ℕ :=
  searchTypes.length * ((searchTypes.headD ⟨"", []⟩).keywords).length

/-- The number of provider queries actually dispatched: one nearbySearch call
per (category, keyword) pair of the fan-out. -/
def dispatchedSearches : ℕ :=
  (searchTypes.map (fun st => st.keywords.length)).sum

/-- Worker of dedupById: scan left to right, keeping a place if and only if no
earlier kept position has the same id. This is the semantics of the source
filter: index === self.findIndex(p => p.id === place.id), which keeps exactly
the first occurrence of every id. -/
def dedupGo (seen : List String) : List SafePlace → List SafePlace
  | [] => []
  | p :: rest =>
    if p.id ∈ seen then dedupGo seen rest
    else p :: dedupGo (p.id :: seen) rest

/-- Deduplication by provider place id, keeping the first occurrence:
allPlaces.filter((place, index, self) => index === self.findIndex(p => p.id === place.id)). -/
def dedupById (l : List SafePlace) : List SafePlace :=
  dedupGo [] l

/-- The sort key relation of uniquePlaces.sort((a, b) => (a.distance || 0) - (b.distance || 0)). -/
def distLe (a b : SafePlace) : Prop :=
  a.distance ≤ b.distance

instance : DecidableRel distLe := fun a b => by
  unfold distLe
  infer_instance

instance : IsTotal SafePlace distLe :=
  ⟨fun a b => le_total a.distance b.distance⟩

instance : IsTrans SafePlace distLe :=
  ⟨fun _ _ _ hab hbc => le_trans hab hbc⟩

/-- The ascending distance sort of searchWithGoogleService (stable, as
Array.prototype.sort is). -/
def sortByDistance (l : List SafePlace) : List SafePlace :=
  List.insertionSort distLe l

/-- The contents of the allPlaces accumulator at the moment completedSearches
reaches totalSearches: the concatenation, in completion order, of the OK
payloads among the first totalSearches callbacks. arrivals is the list of
per-query callback payloads in completion order (none for a non-OK status). -/
def mergedPlaces (arrivals : List (Option (List SafePlace))) : List SafePlace :=
  ((arrivals.take totalSearches).filterMap id).flatten

/-- The value searchWithGoogleService resolves with, as a function of the
callback payloads in completion order: deduplicate the merged list by id, then
sort ascending by distance. The resolution fires when completedSearches equals
totalSearches, so only the first totalSearches callbacks contribute. -/
def searchResolve (arrivals : List (Option (List SafePlace))) : List SafePlace :=
  sortByDistance (dedupById (mergedPlaces arrivals))

/-- The zone status record of the NearbySafePlaces component
(zone, nearestDistance in km, nearestPlace). -/
structure BZoneStatus where
  zone : String
  nearestDistance : WithTop ℚ
  nearestPlace : Option SafePlace
deriving DecidableEq

/-- The loop body of the calculateZoneStatus scan: the accumulator is
(nearestDistance, nearestPlace), started at (Infinity, null); a place replaces
it when its distance field is JS-truthy (nonzero) and strictly smaller. -/
def zoneScanStep (acc : WithTop ℚ × Option SafePlace) (place : SafePlace) :
    WithTop ℚ × Option SafePlace :=
  if place.distance ≠ 0 ∧ ((place.distance : ℚ) : WithTop ℚ) < acc.1 then
    (((place.distance : ℚ) : WithTop ℚ), some place)
  else acc

/-- The forEach scan of calculateZoneStatus over the place list. -/
def zoneScan (places : List SafePlace) : WithTop ℚ × Option SafePlace :=
  places.foldl zoneScanStep (⊤, none)

/-- The threshold chain of calculateZoneStatus applied to the distance in km. -/
def zoneBucket (distanceInKm : WithTop ℚ) (nearestPlace : Option SafePlace) : BZoneStatus :=
  if distanceInKm ≤ ((1 : ℚ) : WithTop ℚ) then ⟨"green", distanceInKm, nearestPlace⟩
  else if distanceInKm ≤ ((5 : ℚ) : WithTop ℚ) then ⟨"orange", distanceInKm, nearestPlace⟩
  else ⟨"red", distanceInKm, nearestPlace⟩

/-- calculateZoneStatus of NearbySafePlaces. The scan skips places whose
distance field is JS-falsy (0 in the model); the accumulator starts at
Infinity with no place; the tracked minimum (meters) is divided by 1000
before bucketing. -/
def calculateZoneStatus (userLocation : Option Coord) (places : List SafePlace) : BZoneStatus :=
  match userLocation with
  | none => ⟨"unknown", 0, none⟩
  | some _ =>
    if places.length = 0 then ⟨"unknown", 0, none⟩
    else
      zoneBucket (WithTop.map (fun d => d / 1000) (zoneScan places).1) (zoneScan places).2

/-- The outcome of one findNearbyPlaces call against the provider: either
window.google is absent (searchWithGoogleService throws), or both radius
attempts run, each characterised by its callback payloads in completion order. -/
inductive ProviderOutcome where
  | unavailable : ProviderOutcome
  | available : List (Option (List SafePlace)) → List (Option (List SafePlace)) → ProviderOutcome

/-- The component state of NearbySafePlaces touched by findNearbyPlaces. -/
structure NSPState where
  safePlaces : List SafePlace
  loading : Bool
  searchRadius : ℕ
  error : Option String
  zoneStatus : BZoneStatus
deriving DecidableEq

/-- The error message set by the catch branch of findNearbyPlaces. -/
def fetchErrorMessage : String :=
  "Unable to fetch nearby places. Please try again."

/-- findNearbyPlaces of NearbySafePlaces as a state transformer. On the throwing
path (provider unavailable) only error and loading change: the radius attempt is
never reached, so safePlaces, searchRadius and zoneStatus keep their previous
values. On the available path: 20 km attempt, fallback to 50 km when empty,
truncation to the 8 nearest, and zone status recomputation. -/
def findNearbyPlaces (location : Coord) (st : NSPState) : ProviderOutcome → NSPState
  | ProviderOutcome.unavailable =>
    { st with loading := false, error := some fetchErrorMessage }
  | ProviderOutcome.available arrivals20 arrivals50 =>
    let places20 := searchResolve arrivals20
    let chosen :=
      if places20.length = 0 then (searchResolve arrivals50, 50) else (places20, 20)
    let nearestPlaces := chosen.1.take 8
    { safePlaces := nearestPlaces
      loading := false
      searchRadius := chosen.2
      error := none
      zoneStatus := calculateZoneStatus (some location) nearestPlaces }

/-- A latitude/longitude pair over the reals, the argument type of the two
haversine helpers that take position objects. -/
structure LatLng where
  lat : ℝ
  lng : ℝ

/-- Math.atan2 over the reals (the NaN-free part of its IEEE contract). All
three getDistance copies call it on the same arguments, so only its presence,
not its analytic properties, matters to the equivalence proofs. -/
noncomputable def atan2 (y x : ℝ) : ℝ :=
  if 0 < x then Real.arctan (y / x)
  else if x < 0 ∧ 0 ≤ y then Real.arctan (y / x) + Real.pi
  else if x < 0 then Real.arctan (y / x) - Real.pi
  else if 0 < y then Real.pi / 2
  else if y < 0 then -(Real.pi / 2)
  else 0

namespace NearbySafePlaces

/-- getDistance of the NearbySafePlaces component: haversine with Earth radius
6371e3, result in meters. -/
noncomputable def getDistance (pos1 pos2 : LatLng) : ℝ :=
  let R : ℝ := 6371e3
  let phi1 := pos1.lat * Real.pi / 180
  let phi2 := pos2.lat * Real.pi / 180
  let dPhi := (pos2.lat - pos1.lat) * Real.pi / 180
  let dLambda := (pos2.lng - pos1.lng) * Real.pi / 180
  let a := Real.sin (dPhi / 2) * Real.sin (dPhi / 2) +
    Real.cos phi1 * Real.cos phi2 * Real.sin (dLambda / 2) * Real.sin (dLambda / 2)
  let c := 2 * atan2 (Real.sqrt a) (Real.sqrt (1 - a))
  R * c

end NearbySafePlaces

namespace GoogleMap

/-- getDistance of the GoogleMap component: textually the same haversine as the
NearbySafePlaces copy (Earth radius 6371e3, meters). -/
noncomputable def getDistance (pos1 pos2 : LatLng) : ℝ :=
  let R : ℝ := 6371e3
  let phi1 := pos1.lat * Real.pi / 180
  let phi2 := pos2.lat * Real.pi / 180
  let dPhi := (pos2.lat - pos1.lat) * Real.pi / 180
  let dLambda := (pos2.lng - pos1.lng) * Real.pi / 180
  let a := Real.sin (dPhi / 2) * Real.sin (dPhi / 2) +
    Real.cos phi1 * Real.cos phi2 * Real.sin (dLambda / 2) * Real.sin (dLambda / 2)
  let c := 2 * atan2 (Real.sqrt a) (Real.sqrt (1 - a))
  R * c

end GoogleMap

namespace Dashboard

/-- The toRad helper of the Dashboard getDistance. -/
noncomputable def toRad (value : ℝ) : ℝ :=
  value * Real.pi / 180

/-- getDistance of the Dashboard page: haversine with Earth radius 6371,
result in kilometers, taking the four coordinates separately. -/
noncomputable def getDistance (lat1 lon1 lat2 lon2 : ℝ) : ℝ :=
  let R : ℝ := 6371
  let dLat := toRad (lat2 - lat1)
  let dLon := toRad (lon2 - lon1)
  let a := Real.sin (dLat / 2) * Real.sin (dLat / 2) +
    Real.cos (toRad lat1) * Real.cos (toRad lat2) * Real.sin (dLon / 2) * Real.sin (dLon / 2)
  let c := 2 * atan2 (Real.sqrt a) (Real.sqrt (1 - a))
  R * c

end Dashboard

/-- The zone status record of the Dashboard (zone, nearestDistance in km,
nearestPlace). The message string of the source record is pure presentation
and is omitted. -/
structure DashZoneStatus where
  zone : String
  nearestDistance : WithTop ℝ
  nearestPlace : Option SafePlace

/-- The per-place distance in km used by the checkSafetyZone scan: the stored
distance field divided by 1000 when that field is JS-truthy (nonzero),
otherwise the haversine distance recomputed from the coordinates with the
Dashboard getDistance. -/
noncomputable def dashDistanceKm (u : Coord) (place : SafePlace) : ℝ :=
  if place.distance ≠ 0 then ((place.distance : ℝ)) / 1000
  else Dashboard.getDistance ((u.lat : ℝ)) ((u.lng : ℝ)) ((place.lat : ℝ)) ((place.lng : ℝ))

/-- The loop body of the checkSafetyZone scan (strict improvement, accumulator
started at Infinity with no place). -/
noncomputable def dashScanStep (u : Coord) (acc : WithTop ℝ × Option SafePlace)
    (place : SafePlace) : WithTop ℝ × Option SafePlace :=
  if ((dashDistanceKm u place : ℝ) : WithTop ℝ) < acc.1 then
    (((dashDistanceKm u place : ℝ) : WithTop ℝ), some place)
  else acc

/-- The forEach scan of checkSafetyZone over the place list. -/
noncomputable def dashScan (u : Coord) (safePlaces : List SafePlace) :
    WithTop ℝ × Option SafePlace :=
  safePlaces.foldl (dashScanStep u) (⊤, none)

/-- The threshold chain of checkSafetyZone (nearestDistance is already in km). -/
noncomputable def dashBucket (nearestDistance : WithTop ℝ) (nearestPlace : Option SafePlace) :
    DashZoneStatus :=
  if nearestDistance ≤ ((1 : ℝ) : WithTop ℝ) then ⟨"green", nearestDistance, nearestPlace⟩
  else if nearestDistance ≤ ((5 : ℝ) : WithTop ℝ) then ⟨"orange", nearestDistance, nearestPlace⟩
  else ⟨"red", nearestDistance, nearestPlace⟩

/-- checkSafetyZone of the Dashboard. -/
noncomputable def checkSafetyZone (userLoc : Option Coord) (safePlaces : List SafePlace) : DashZoneStatus :=
  match userLoc with
  | none => ⟨"unknown", 0, none⟩
  | some u =>
    if safePlaces.length = 0 then ⟨"unknown", 0, none⟩
    else
      dashBucket (dashScan u safePlaces).1 (dashScan u safePlaces).2

/-- The Dashboard component state touched by the two update handlers. -/
structure DashState where
  userLocation : Option Coord
  nearestSafePlaces : List SafePlace
  zoneStatus : DashZoneStatus

/-- handleNearestPlacesUpdate of the Dashboard: store the new place list, and
recompute the zone status only when the user location is known and the new
list is non-empty; otherwise the previous zone status is retained. -/
noncomputable def handleNearestPlacesUpdate (st : DashState) (places : List SafePlace) : DashState :=
  { st with
    nearestSafePlaces := places
    zoneStatus :=
      if st.userLocation ≠ none ∧ 0 < places.length then
        checkSafetyZone st.userLocation places
      else st.zoneStatus }

/-- handleLocationChange of the Dashboard: store the new location, and
recompute the zone status only when the currently stored place list is
non-empty; otherwise the previous zone status is retained. -/
noncomputable def handleLocationChange (st : DashState) (location : Coord) : DashState :=
  { st with
    userLocation := some location
    zoneStatus :=
      if 0 < st.nearestSafePlaces.length then
        checkSafetyZone (some location) st.nearestSafePlaces
      else st.zoneStatus }

/-- The outcome of one getCurrentPosition request in GoogleMap
getCurrentLocation: success with a coordinate, error callback (failure or
denial), or navigator.geolocation missing entirely. -/
inductive GeoOutcome where
  | success : Coord → GeoOutcome
  | failure : GeoOutcome
  | unsupported : GeoOutcome

/-- The coordinate that GoogleMap getCurrentLocation stores and hands to
onLocationChange for each outcome: the real position on success, and the
center prop (default (28.6139, 77.2090)) on geolocation error or when
geolocation is unsupported. A coordinate is delivered in every case. -/
def getCurrentLocationDelivered (center : Coord) : GeoOutcome → Coord
  | GeoOutcome.success c => c
  | GeoOutcome.failure => center
  | GeoOutcome.unsupported => center

/-- The default center prop of the GoogleMap component. -/
def defaultCenter : Coord :=
  ⟨28.6139, 77.2090⟩

/-- Sample place builder for the concrete scenarios: a place with the given id
and stored distance in meters, placed near the default center (integer
coordinates keep every field kernel-evaluable). -/
def mkPlace (i : String) (d : ℚ) : SafePlace :=
  ⟨i, "Place " ++ i, "police", "Address " ++ i, none, d, 28, 77, none, none⟩

/-- The place returned by the seventh-completing provider query in the C1
scenario. -/
def pP1 : SafePlace :=
  mkPlace "P1" 1200

/-- Completion-ordered callback payloads of one radius attempt in which the
first six queries contribute nothing and the seventh returns pP1. -/
def c1Arrivals : List (Option (List SafePlace)) :=
  [some [], some [], none, some [], some [], some [], some [pP1], some []]

/-- The useState initial values of the NearbySafePlaces component. -/
def stInit : NSPState :=
  ⟨[], false, 20, none, ⟨"unknown", 0, none⟩⟩

/-- A NearbySafePlaces state left by an earlier successful search, used to
exercise the provider-unavailable path. -/
def stStale : NSPState :=
  ⟨[pP1], false, 20, none, ⟨"green", ((2 : ℚ) : WithTop ℚ), some pP1⟩⟩

/-- Completion-ordered callback payloads with results in the first six
callbacks, used for the sorting and truncation scenarios. -/
def c9Arrivals : List (Option (List SafePlace)) :=
  [some [mkPlace "A" 2000, mkPlace "B" 100], some [], none,
   some [mkPlace "C" 700], some [], some [], some [], some []]

/-- Completion-ordered callback payloads in which two different queries return
the same place id P1 (the police station found under both the police station
and the police keyword), as in the spec scenario. -/
def c8Arrivals : List (Option (List SafePlace)) :=
  [some [pP1], some [pP1, mkPlace "H2" 3400], some [], some [], some [], some [], some [], some []]

/-- A place whose stored distance field is exactly 0 (a place at the query
center): JS-falsy, so the calculateZoneStatus scan skips it. -/
def zeroDistPlace : SafePlace :=
  mkPlace "Z0" 0

/-- A Dashboard state with no location yet but a non-empty place list. -/
noncomputable def stAwaitingLocation : DashState :=
  ⟨none, [mkPlace "G1" 500], ⟨"unknown", 0, none⟩⟩

/-- A Dashboard state with a known location and a non-empty place list. -/
noncomputable def stWithPlaces : DashState :=
  ⟨some defaultCenter, [mkPlace "G1" 500], ⟨"unknown", 0, none⟩⟩

/-- A Dashboard state currently showing a green zone status. -/
noncomputable def stGreenDash : DashState :=
  ⟨some defaultCenter, [mkPlace "G1" 500], ⟨"green", 0, none⟩⟩

/-! Helper lemmas about the embedded definitions. -/

lemma zoneBucket_zone (d : WithTop ℚ) (o : Option SafePlace) :
    (zoneBucket d o).zone = "green" ∨ (zoneBucket d o).zone = "orange" ∨
      (zoneBucket d o).zone = "red" := by
  unfold zoneBucket
  split
  · left; rfl
  · split
    · right; left; rfl
    · right; right; rfl

lemma dashBucket_zone (d : WithTop ℝ) (o : Option SafePlace) :
    (dashBucket d o).zone = "green" ∨ (dashBucket d o).zone = "orange" ∨
      (dashBucket d o).zone = "red" := by
  unfold dashBucket
  split
  · left; rfl
  · split
    · right; left; rfl
    · right; right; rfl

lemma calculateZoneStatus_some_ne_nil (u : Coord) {places : List SafePlace} (h : places ≠ []) :
    calculateZoneStatus (some u) places =
      zoneBucket (WithTop.map (fun d => d / 1000) (zoneScan places).1) (zoneScan places).2 := by
  simp only [calculateZoneStatus]
  rw [if_neg (by simpa [List.length_eq_zero] using h)]

lemma checkSafetyZone_some_ne_nil (u : Coord) {places : List SafePlace} (h : places ≠ []) :
    checkSafetyZone (some u) places = dashBucket (dashScan u places).1 (dashScan u places).2 := by
  simp only [checkSafetyZone]
  rw [if_neg (by simpa [List.length_eq_zero] using h)]

lemma dashScan_single (u : Coord) (p : SafePlace) :
    dashScan u [p] = (((dashDistanceKm u p : ℝ) : WithTop ℝ), some p) := by
  unfold dashScan dashScanStep
  simp [WithTop.coe_lt_top]

lemma zoneScan_go_spec (l : List SafePlace) :
    ∀ (d : WithTop ℚ) (o : Option SafePlace), (∀ p ∈ l, 0 < p.distance) →
      (∀ p ∈ l, (l.foldl zoneScanStep (d, o)).1 ≤ ((p.distance : ℚ) : WithTop ℚ)) ∧
      (l.foldl zoneScanStep (d, o)).1 ≤ d ∧
      ((l.foldl zoneScanStep (d, o)) = (d, o) ∨
        ∃ q ∈ l, (l.foldl zoneScanStep (d, o)) = (((q.distance : ℚ) : WithTop ℚ), some q)) := by
  induction l with
  | nil =>
    intro d o _
    exact ⟨by simp, le_refl d, Or.inl rfl⟩
  | cons p t ih =>
    intro d o h
    have hp : 0 < p.distance := h p (List.mem_cons_self p t)
    have ht : ∀ q ∈ t, 0 < q.distance := fun q hq => h q (List.mem_cons_of_mem p hq)
    rw [List.foldl_cons]
    by_cases hcond : p.distance ≠ 0 ∧ ((p.distance : ℚ) : WithTop ℚ) < d
    · have hstep : zoneScanStep (d, o) p = (((p.distance : ℚ) : WithTop ℚ), some p) := by
        unfold zoneScanStep
        rw [if_pos hcond]
      rw [hstep]
      obtain ⟨h1, h2, h3⟩ := ih ((p.distance : ℚ) : WithTop ℚ) (some p) ht
      refine ⟨?_, h2.trans (le_of_lt hcond.2), ?_⟩
      · intro q hq
        rcases List.mem_cons.mp hq with hq | hq
        · exact hq ▸ h2
        · exact h1 q hq
      · rcases h3 with h3 | ⟨q, hq, h3⟩
        · exact Or.inr ⟨p, List.mem_cons_self p t, h3⟩
        · exact Or.inr ⟨q, List.mem_cons_of_mem p hq, h3⟩
    · have hstep : zoneScanStep (d, o) p = (d, o) := by
        unfold zoneScanStep
        rw [if_neg hcond]
      rw [hstep]
      have hnlt : ¬ (((p.distance : ℚ) : WithTop ℚ) < d) := fun hlt =>
        hcond ⟨ne_of_gt hp, hlt⟩
      have hdle : d ≤ ((p.distance : ℚ) : WithTop ℚ) := le_of_not_lt hnlt
      obtain ⟨h1, h2, h3⟩ := ih d o ht
      refine ⟨?_, h2, ?_⟩
      · intro q hq
        rcases List.mem_cons.mp hq with hq | hq
        · exact hq ▸ h2.trans hdle
        · exact h1 q hq
      · rcases h3 with h3 | ⟨q, hq, h3⟩
        · exact Or.inl h3
        · exact Or.inr ⟨q, List.mem_cons_of_mem p hq, h3⟩

lemma id_not_seen_of_mem_dedupGo (l : List SafePlace) :
    ∀ (seen : List String) (x : SafePlace), x ∈ dedupGo seen l → x.id ∉ seen := by
  induction l with
  | nil =>
    intro seen x hx
    simp [dedupGo] at hx
  | cons p t ih =>
    intro seen x hx
    simp only [dedupGo] at hx
    by_cases hs : p.id ∈ seen
    · rw [if_pos hs] at hx
      exact ih seen x hx
    · rw [if_neg hs] at hx
      rcases List.mem_cons.mp hx with hx | hx
      · subst hx
        exact hs
      · intro hmem
        exact ih (p.id :: seen) x hx (List.mem_cons_of_mem _ hmem)

lemma dedupGo_ids_nodup (l : List SafePlace) :
    ∀ (seen : List String), ((dedupGo seen l).map (fun p => p.id)).Nodup := by
  induction l with
  | nil =>
    intro seen
    simp [dedupGo]
  | cons p t ih =>
    intro seen
    simp only [dedupGo]
    by_cases hs : p.id ∈ seen
    · rw [if_pos hs]
      exact ih seen
    · rw [if_neg hs, List.map_cons]
      refine List.nodup_cons.mpr ⟨?_, ih (p.id :: seen)⟩
      intro hmem
      obtain ⟨x, hx, hxid⟩ := List.mem_map.mp hmem
      apply id_not_seen_of_mem_dedupGo t (p.id :: seen) x hx
      rw [hxid]
      exact List.mem_cons_self _ _

lemma dedupGo_filter (l : List SafePlace) :
    ∀ (seen : List String) (i : String), i ∉ seen →
      (dedupGo seen l).filter (fun p => decide (p.id = i)) =
        (l.find? (fun p => decide (p.id = i))).toList := by
  induction l with
  | nil =>
    intro seen i _
    simp [dedupGo]
  | cons p t ih =>
    intro seen i hi
    simp only [dedupGo]
    by_cases hs : p.id ∈ seen
    · rw [if_pos hs]
      have hpi : ¬ ((fun x : SafePlace => decide (x.id = i)) p = true) := by
        simp only [decide_eq_true_eq]
        intro h
        exact hi (h ▸ hs)
      rw [@List.find?_cons_of_neg SafePlace (fun x => decide (x.id = i)) p t hpi]
      exact ih seen i hi
    · rw [if_neg hs]
      by_cases hpi : p.id = i
      · have hpi1 : (fun x : SafePlace => decide (x.id = i)) p = true := by simp [hpi]
        rw [@List.filter_cons_of_pos SafePlace (fun x => decide (x.id = i)) p
          (dedupGo (p.id :: seen) t) hpi1]
        rw [@List.find?_cons_of_pos SafePlace (fun x => decide (x.id = i)) p t hpi1]
        have hnil : (dedupGo (p.id :: seen) t).filter (fun p2 => decide (p2.id = i)) = [] := by
          rw [List.filter_eq_nil_iff]
          intro x hx
          simp only [decide_eq_true_eq]
          intro hxi
          apply id_not_seen_of_mem_dedupGo t (p.id :: seen) x hx
          rw [hxi, ← hpi]
          exact List.mem_cons_self _ _
        rw [hnil]
        rfl
      · have hpi1 : ¬ ((fun x : SafePlace => decide (x.id = i)) p = true) := by simp [hpi]
        rw [@List.filter_cons_of_neg SafePlace (fun x => decide (x.id = i)) p
          (dedupGo (p.id :: seen) t) hpi1]
        rw [@List.find?_cons_of_neg SafePlace (fun x => decide (x.id = i)) p t hpi1]
        apply ih (p.id :: seen) i
        intro hmem
        rcases List.mem_cons.mp hmem with h | h
        · exact hpi h.symm
        · exact hi h

lemma dedupById_ids_nodup (l : List SafePlace) :
    ((dedupById l).map (fun p => p.id)).Nodup :=
  dedupGo_ids_nodup l []

lemma dedupById_filter (l : List SafePlace) (i : String) :
    (dedupById l).filter (fun p => decide (p.id = i)) =
      (l.find? (fun p => decide (p.id = i))).toList :=
  dedupGo_filter l [] i (by simp)

lemma findNearbyPlaces_available_safePlaces (location : Coord) (st : NSPState)
    (a20 a50 : List (Option (List SafePlace))) :
    (findNearbyPlaces location st (ProviderOutcome.available a20 a50)).safePlaces =
      (if (searchResolve a20).length = 0 then searchResolve a50
       else searchResolve a20).take 8 := by
  simp only [findNearbyPlaces]
  by_cases h : (searchResolve a20).length = 0
  · rw [if_pos h, if_pos h]
  · rw [if_neg h, if_neg h]

lemma findNearbyPlaces_available_searchRadius (location : Coord) (st : NSPState)
    (a20 a50 : List (Option (List SafePlace))) :
    (findNearbyPlaces location st (ProviderOutcome.available a20 a50)).searchRadius =
      (if (searchResolve a20).length = 0 then 50 else 20) := by
  simp only [findNearbyPlaces]
  by_cases h : (searchResolve a20).length = 0
  · rw [if_pos h, if_pos h]
  · rw [if_neg h, if_neg h]

lemma searchResolve_length (arrivals : List (Option (List SafePlace))) :
    (searchResolve arrivals).length = (dedupById (mergedPlaces arrivals)).length :=
  (List.perm_insertionSort distLe _).length_eq

/-! Claim theorems. -/

/-- Claim C1 (code bug): the join condition of searchWithGoogleService is
totalSearches = searchTypes.length * searchTypes[0].keywords.length = 6, while
2 + 3 + 3 = 8 provider queries are dispatched, so the promise resolves after
the sixth completion and the contributions of the last two completing queries
are dropped: in the concrete completion order c1Arrivals, the place pP1
returned by the seventh-completing query is absent from the resolved list.
The claim that the result is produced only after all N = 8 queries complete is
what the code itself intends (its completion check is commented as testing
that all searches are complete) but not what it does. -/
theorem join_resolves_before_all_queries_complete :
    totalSearches = 6 ∧ dispatchedSearches = 8 ∧ totalSearches ≠ dispatchedSearches ∧
    c1Arrivals.length = dispatchedSearches ∧
    pP1 ∈ (c1Arrivals.filterMap id).flatten ∧
    searchResolve c1Arrivals = [] := by decide

/-- Claim C2: for both zone classifiers (calculateZoneStatus of
NearbySafePlaces and checkSafetyZone of the Dashboard), the result is the
Unknown record (zone unknown, nearestDistance 0, no nearest place) exactly
when the place list is empty or the user location is absent, and for every
non-empty list with a known location the zone is one of green, orange, red. -/
theorem zone_unknown_iff_no_place_or_no_location (loc : Option Coord) (places : List SafePlace) :
    (calculateZoneStatus loc places = ⟨"unknown", 0, none⟩ ↔ (loc = none ∨ places = [])) ∧
    (checkSafetyZone loc places = ⟨"unknown", 0, none⟩ ↔ (loc = none ∨ places = [])) ∧
    (loc ≠ none → places ≠ [] →
      ((calculateZoneStatus loc places).zone = "green" ∨
        (calculateZoneStatus loc places).zone = "orange" ∨
        (calculateZoneStatus loc places).zone = "red") ∧
      ((checkSafetyZone loc places).zone = "green" ∨
        (checkSafetyZone loc places).zone = "orange" ∨
        (checkSafetyZone loc places).zone = "red")) := by
  refine ⟨?_, ?_, ?_⟩
  · constructor
    · intro h
      by_contra hc
      push_neg at hc
      obtain ⟨h1, h2⟩ := hc
      rcases loc with _ | u
      · exact h1 rfl
      · rw [calculateZoneStatus_some_ne_nil u h2] at h
        have hz := zoneBucket_zone (WithTop.map (fun d => d / 1000) (zoneScan places).1)
          (zoneScan places).2
        rw [h] at hz
        rcases hz with hz | hz | hz <;> exact absurd hz (by decide)
    · intro h
      rcases h with h | h
      · subst h; rfl
      · subst h
        rcases loc with _ | u
        · rfl
        · rfl
  · constructor
    · intro h
      by_contra hc
      push_neg at hc
      obtain ⟨h1, h2⟩ := hc
      rcases loc with _ | u
      · exact h1 rfl
      · rw [checkSafetyZone_some_ne_nil u h2] at h
        have hz := dashBucket_zone (dashScan u places).1 (dashScan u places).2
        rw [h] at hz
        rcases hz with hz | hz | hz <;> exact absurd hz (by decide)
    · intro h
      rcases h with h | h
      · subst h; rfl
      · subst h
        rcases loc with _ | u
        · rfl
        · rfl
  · intro h1 h2
    constructor
    · rcases loc with _ | u
      · exact absurd rfl h1
      · rw [calculateZoneStatus_some_ne_nil u h2]
        exact zoneBucket_zone _ _
    · rcases loc with _ | u
      · exact absurd rfl h1
      · rw [checkSafetyZone_some_ne_nil u h2]
        exact dashBucket_zone _ _

/-- Witness for claim C2 at a concrete non-empty input with a known location. -/
theorem zone_unknown_iff_no_place_or_no_location_witness :
    ((calculateZoneStatus (some defaultCenter) [pP1]).zone = "green" ∨
      (calculateZoneStatus (some defaultCenter) [pP1]).zone = "orange" ∨
      (calculateZoneStatus (some defaultCenter) [pP1]).zone = "red") ∧
    ((checkSafetyZone (some defaultCenter) [pP1]).zone = "green" ∨
      (checkSafetyZone (some defaultCenter) [pP1]).zone = "orange" ∨
      (checkSafetyZone (some defaultCenter) [pP1]).zone = "red") :=
  zone_unknown_iff_no_place_or_no_location (some defaultCenter) [pP1] |>.2.2
    (by decide) (by decide)

/-- Counterexample for claim C3 as stated: a place whose stored distance is
exactly 0 meters is JS-falsy, so the calculateZoneStatus scan skips it; with
the singleton list the tracked minimum stays Infinity and the result is a red
zone with no nearest place, although the minimum distance over the list is 0
(which the claim says should give a green zone with that place as nearest). -/
theorem calculateZoneStatus_zero_distance_counterexample :
    zeroDistPlace.distance = 0 ∧
    (calculateZoneStatus (some defaultCenter) [zeroDistPlace]).zone = "red" ∧
    (calculateZoneStatus (some defaultCenter) [zeroDistPlace]).zone ≠ "green" ∧
    (calculateZoneStatus (some defaultCenter) [zeroDistPlace]).nearestPlace = none := by decide

/-- Claim C3 (amended): for every non-empty place list with known user
location in which every stored distance is positive, calculateZoneStatus
returns the minimum distance over the list (scanned linearly), in km, with the
place attaining it as nearestPlace, and buckets that minimum with inclusive
lower bounds: at most 1 km green, above 1 and at most 5 km orange, above 5 km
red. -/
theorem calculateZoneStatus_min_scan_positive_distances (c : Coord)
    (places : List SafePlace) (hne : places ≠ [])
    (hpos : ∀ p ∈ places, 0 < p.distance) :
    ∃ q, q ∈ places ∧ (∀ p ∈ places, q.distance ≤ p.distance) ∧
      calculateZoneStatus (some c) places =
        ⟨(if q.distance / 1000 ≤ 1 then "green"
          else if q.distance / 1000 ≤ 5 then "orange" else "red"),
          ((q.distance / 1000 : ℚ) : WithTop ℚ), some q⟩ := by
  obtain ⟨h1, h2, h3⟩ := zoneScan_go_spec places ⊤ none hpos
  rcases h3 with h3 | ⟨q, hq, h3⟩
  · obtain ⟨p, hp⟩ := List.exists_mem_of_ne_nil places hne
    have hle := h1 p hp
    rw [h3] at hle
    exact absurd hle (by simp)
  · refine ⟨q, hq, ?_, ?_⟩
    · intro p hp
      have hle := h1 p hp
      rw [h3] at hle
      exact WithTop.coe_le_coe.mp hle
    · have hscan : zoneScan places = (((q.distance : ℚ) : WithTop ℚ), some q) := h3
      rw [calculateZoneStatus_some_ne_nil c hne, hscan]
      have hmap : WithTop.map (fun d => d / 1000) (((q.distance : ℚ) : WithTop ℚ)) =
          ((q.distance / 1000 : ℚ) : WithTop ℚ) := rfl
      unfold zoneBucket
      rw [hmap]
      by_cases hg : q.distance / 1000 ≤ 1
      · rw [if_pos (WithTop.coe_le_coe.mpr hg), if_pos hg]
      · rw [if_neg (fun hcc => hg (WithTop.coe_le_coe.mp hcc)), if_neg hg]
        by_cases ho : q.distance / 1000 ≤ 5
        · rw [if_pos (WithTop.coe_le_coe.mpr ho), if_pos ho]
        · rw [if_neg (fun hcc => ho (WithTop.coe_le_coe.mp hcc)), if_neg ho]

/-- Witness for claim C3 at the four boundary distances of the spec:
1.000 km green, 1.001 km orange, 5.000 km orange, 5.001 km red. -/
theorem calculateZoneStatus_min_scan_positive_distances_witness :
    (calculateZoneStatus (some defaultCenter) [mkPlace "B1" 1000]).zone = "green" ∧
    (calculateZoneStatus (some defaultCenter) [mkPlace "B2" 1001]).zone = "orange" ∧
    (calculateZoneStatus (some defaultCenter) [mkPlace "B3" 5000]).zone = "orange" ∧
    (calculateZoneStatus (some defaultCenter) [mkPlace "B4" 5001]).zone = "red" := by
  refine ⟨?_, ?_, ?_, ?_⟩
  · obtain ⟨q, hq, _, heq⟩ := calculateZoneStatus_min_scan_positive_distances defaultCenter
      [mkPlace "B1" 1000] (by decide) (by decide)
    rw [List.mem_singleton] at hq
    subst hq
    rw [heq]
    norm_num [mkPlace]
  · obtain ⟨q, hq, _, heq⟩ := calculateZoneStatus_min_scan_positive_distances defaultCenter
      [mkPlace "B2" 1001] (by decide) (by decide)
    rw [List.mem_singleton] at hq
    subst hq
    rw [heq]
    norm_num [mkPlace]
  · obtain ⟨q, hq, _, heq⟩ := calculateZoneStatus_min_scan_positive_distances defaultCenter
      [mkPlace "B3" 5000] (by decide) (by decide)
    rw [List.mem_singleton] at hq
    subst hq
    rw [heq]
    norm_num [mkPlace]
  · obtain ⟨q, hq, _, heq⟩ := calculateZoneStatus_min_scan_positive_distances defaultCenter
      [mkPlace "B4" 5001] (by decide) (by decide)
    rw [List.mem_singleton] at hq
    subst hq
    rw [heq]
    norm_num [mkPlace]

/-- Claim C4: on the non-throwing path of findNearbyPlaces, the reported
radius-used is 50 exactly when the 20 km attempt resolved empty (one retry at
the fixed 50 km radius) and 20 otherwise; the stored list is the first 8
entries of the attempt that produced results, so its length is
min(8, number of unique places found by that attempt). -/
theorem radius_fallback_and_truncation (location : Coord) (st : NSPState)
    (a20 a50 : List (Option (List SafePlace))) :
    (findNearbyPlaces location st (ProviderOutcome.available a20 a50)).searchRadius =
      (if (searchResolve a20).length = 0 then 50 else 20) ∧
    (findNearbyPlaces location st (ProviderOutcome.available a20 a50)).safePlaces =
      (if (searchResolve a20).length = 0 then searchResolve a50
       else searchResolve a20).take 8 ∧
    (findNearbyPlaces location st (ProviderOutcome.available a20 a50)).safePlaces.length =
      min 8 (dedupById (mergedPlaces
        (if (searchResolve a20).length = 0 then a50 else a20))).length := by
  refine ⟨findNearbyPlaces_available_searchRadius location st a20 a50,
    findNearbyPlaces_available_safePlaces location st a20 a50, ?_⟩
  rw [findNearbyPlaces_available_safePlaces location st a20 a50, List.length_take]
  by_cases h : (searchResolve a20).length = 0
  · rw [if_pos h, if_pos h, searchResolve_length]
  · rw [if_neg h, if_neg h, searchResolve_length]

/-- Counterexample for claim C5 as stated: when the provider is unavailable,
findNearbyPlaces sets the error flag but delivers no result at all — the
previously stored place list survives, so the caller is left with the stale
non-empty list [pP1], not with an empty list. -/
theorem provider_unavailable_retains_previous_places :
    (findNearbyPlaces defaultCenter stStale ProviderOutcome.unavailable).error =
      some fetchErrorMessage ∧
    (findNearbyPlaces defaultCenter stStale ProviderOutcome.unavailable).safePlaces = [pP1] ∧
    (findNearbyPlaces defaultCenter stStale ProviderOutcome.unavailable).safePlaces ≠ [] := by
  decide

/-- Claim C5 (amended): when the provider is entirely unreachable or
unconfigured, findNearbyPlaces fails the call with the visible fetch error
message (rendered with a Retry button) and clears the loading flag, but
delivers no result for that call: the stored place list, radius and zone
status are left unchanged, so the list is empty only when no earlier search
had populated it. -/
theorem provider_unavailable_sets_error_flag_keeps_state (location : Coord) (st : NSPState) :
    (findNearbyPlaces location st ProviderOutcome.unavailable).error = some fetchErrorMessage ∧
    (findNearbyPlaces location st ProviderOutcome.unavailable).loading = false ∧
    (findNearbyPlaces location st ProviderOutcome.unavailable).safePlaces = st.safePlaces ∧
    (findNearbyPlaces location st ProviderOutcome.unavailable).searchRadius = st.searchRadius ∧
    (findNearbyPlaces location st ProviderOutcome.unavailable).zoneStatus = st.zoneStatus :=
  ⟨rfl, rfl, rfl, rfl, rfl⟩

/-- Counterexample for claim C6 as stated: when geolocation fails, GoogleMap
getCurrentLocation delivers the center prop (the Delhi default), not an
unknown location; feeding that through the Dashboard handler computes a
concrete green zone from the fallback coordinate instead of degrading to an
Unknown zone. -/
theorem geolocation_failure_computes_zone_from_default_center :
    getCurrentLocationDelivered defaultCenter GeoOutcome.failure = defaultCenter ∧
    (handleLocationChange stAwaitingLocation
        (getCurrentLocationDelivered defaultCenter GeoOutcome.failure)).zoneStatus.zone =
      "green" := by
  refine ⟨rfl, ?_⟩
  show (handleLocationChange stAwaitingLocation defaultCenter).zoneStatus.zone = "green"
  simp only [handleLocationChange]
  rw [if_pos (by simp [stAwaitingLocation])]
  have h : stAwaitingLocation.nearestSafePlaces = [mkPlace "G1" 500] := rfl
  rw [h, checkSafetyZone_some_ne_nil defaultCenter (by simp), dashScan_single]
  have hd : dashDistanceKm defaultCenter (mkPlace "G1" 500) = ((500 : ℚ) : ℝ) / 1000 := by
    unfold dashDistanceKm
    rw [if_pos (by norm_num [mkPlace])]
    norm_num [mkPlace]
  rw [hd]
  unfold dashBucket
  rw [if_pos (by exact WithTop.coe_le_coe.mpr (by push_cast; norm_num))]

/-- Claim C6 (amended): on geolocation failure or missing geolocation support,
getCurrentLocation substitutes the center prop (default (28.6139, 77.2090))
as the delivered location, and the Dashboard then computes the zone from that
fallback coordinate like any real location whenever places are known; the
failure is not mapped to an unknown-location input. -/
theorem geolocation_failure_delivers_center_prop (center : Coord) (st : DashState) :
    getCurrentLocationDelivered center GeoOutcome.failure = center ∧
    getCurrentLocationDelivered center GeoOutcome.unsupported = center ∧
    (st.nearestSafePlaces ≠ [] →
      (handleLocationChange st center).zoneStatus =
        checkSafetyZone (some center) st.nearestSafePlaces) := by
  refine ⟨rfl, rfl, fun h => ?_⟩
  simp only [handleLocationChange]
  rw [if_pos (List.length_pos.mpr h)]

/-- Witness for claim C6 at a concrete state with a non-empty place list. -/
theorem geolocation_failure_delivers_center_prop_witness :
    getCurrentLocationDelivered defaultCenter GeoOutcome.failure = defaultCenter ∧
    (handleLocationChange stWithPlaces defaultCenter).zoneStatus =
      checkSafetyZone (some defaultCenter) stWithPlaces.nearestSafePlaces :=
  ⟨(geolocation_failure_delivers_center_prop defaultCenter stWithPlaces).1,
   (geolocation_failure_delivers_center_prop defaultCenter stWithPlaces).2.2 (by decide)⟩

/-- Counterexample for claim C7 as stated: an update delivering an empty place
list does not trigger recomputation — the Dashboard keeps showing the previous
green status, while the classifier applied to the latest pair (location, empty
list) yields the unknown status. -/
theorem empty_places_update_leaves_stale_zone :
    (handleNearestPlacesUpdate stGreenDash []).nearestSafePlaces = [] ∧
    (handleNearestPlacesUpdate stGreenDash []).zoneStatus.zone = "green" ∧
    (checkSafetyZone (handleNearestPlacesUpdate stGreenDash []).userLocation []).zone =
      "unknown" := by
  refine ⟨rfl, ?_, rfl⟩
  simp only [handleNearestPlacesUpdate]
  rw [if_neg (by simp)]
  rfl

/-- Claim C7 (amended): the stored zone status equals the classifier applied
to the latest inputs only when the update's guard passes — a new place list
recomputes only if it is non-empty and a location is known, and a new location
recomputes only if the stored place list is non-empty; otherwise the previous
zone status is retained, stale. The inputs themselves are always stored. -/
theorem zone_recompute_guarded_by_nonempty_inputs (st : DashState)
    (places : List SafePlace) (location : Coord) :
    (places ≠ [] → st.userLocation ≠ none →
      (handleNearestPlacesUpdate st places).zoneStatus =
        checkSafetyZone st.userLocation places) ∧
    ((places = [] ∨ st.userLocation = none) →
      (handleNearestPlacesUpdate st places).zoneStatus = st.zoneStatus) ∧
    (handleNearestPlacesUpdate st places).nearestSafePlaces = places ∧
    (st.nearestSafePlaces ≠ [] →
      (handleLocationChange st location).zoneStatus =
        checkSafetyZone (some location) st.nearestSafePlaces) ∧
    (st.nearestSafePlaces = [] →
      (handleLocationChange st location).zoneStatus = st.zoneStatus) ∧
    (handleLocationChange st location).userLocation = some location := by
  refine ⟨?_, ?_, rfl, ?_, ?_, rfl⟩
  · intro h1 h2
    simp only [handleNearestPlacesUpdate]
    rw [if_pos ⟨h2, List.length_pos.mpr h1⟩]
  · intro h
    simp only [handleNearestPlacesUpdate]
    rw [if_neg (by rcases h with h | h <;> simp [h])]
  · intro h
    simp only [handleLocationChange]
    rw [if_pos (List.length_pos.mpr h)]
  · intro h
    simp only [handleLocationChange]
    rw [if_neg (by simp [h])]

/-- Witness for claim C7 at a concrete state with a known location and
non-empty lists on both update paths. -/
theorem zone_recompute_guarded_by_nonempty_inputs_witness :
    (handleNearestPlacesUpdate stGreenDash [mkPlace "H1" 2000]).zoneStatus =
      checkSafetyZone stGreenDash.userLocation [mkPlace "H1" 2000] ∧
    (handleLocationChange stGreenDash defaultCenter).zoneStatus =
      checkSafetyZone (some defaultCenter) stGreenDash.nearestSafePlaces :=
  ⟨(zone_recompute_guarded_by_nonempty_inputs stGreenDash [mkPlace "H1" 2000]
      defaultCenter).1 (by decide) (by decide),
   (zone_recompute_guarded_by_nonempty_inputs stGreenDash [mkPlace "H1" 2000]
      defaultCenter).2.2.2.1 (by decide)⟩

/-- Claim C8: the aggregated output of searchWithGoogleService has pairwise
distinct place ids, and for any id present in the merged callback results the
output contains exactly one entry with that id, namely the first occurrence in
merge (completion) order, as returned by find? on the merged list. -/
theorem dedup_keeps_first_occurrence_unique_ids (arrivals : List (Option (List SafePlace)))
    (i : String) :
    ((searchResolve arrivals).map (fun p => p.id)).Nodup ∧
    (searchResolve arrivals).filter (fun p => decide (p.id = i)) =
      ((mergedPlaces arrivals).find? (fun p => decide (p.id = i))).toList := by
  have hperm : (searchResolve arrivals).Perm (dedupById (mergedPlaces arrivals)) :=
    List.perm_insertionSort distLe _
  constructor
  · exact ((hperm.map (fun p => p.id)).nodup_iff).mpr (dedupById_ids_nodup _)
  · have hfp := hperm.filter (fun p => decide (p.id = i))
    rw [dedupById_filter] at hfp
    cases hfind : (mergedPlaces arrivals).find? (fun p => decide (p.id = i)) with
    | none =>
      rw [hfind] at hfp
      exact hfp.eq_nil
    | some q =>
      rw [hfind] at hfp
      exact List.perm_singleton.mp hfp

/-- Claim C9: the resolved list of searchWithGoogleService and the truncated
list stored by findNearbyPlaces are sorted ascending by the distance field:
for all positions i before j, the distance at i is at most the distance at j. -/
theorem output_sorted_ascending_by_distance (arrivals : List (Option (List SafePlace)))
    (location : Coord) (st : NSPState) (a20 a50 : List (Option (List SafePlace))) :
    (∀ i j : Fin (searchResolve arrivals).length, i < j →
      ((searchResolve arrivals).get i).distance ≤ ((searchResolve arrivals).get j).distance) ∧
    (∀ i j : Fin ((findNearbyPlaces location st
        (ProviderOutcome.available a20 a50)).safePlaces).length, i < j →
      (((findNearbyPlaces location st
        (ProviderOutcome.available a20 a50)).safePlaces).get i).distance ≤
        (((findNearbyPlaces location st
          (ProviderOutcome.available a20 a50)).safePlaces).get j).distance) := by
  constructor
  · intro i j hij
    exact List.pairwise_iff_get.mp (List.sorted_insertionSort distLe _) i j hij
  · have hs : List.Pairwise distLe
        ((findNearbyPlaces location st (ProviderOutcome.available a20 a50)).safePlaces) := by
      rw [findNearbyPlaces_available_safePlaces]
      refine List.Pairwise.sublist (List.take_sublist _ _) ?_
      by_cases h : (searchResolve a20).length = 0
      · rw [if_pos h]
        exact List.sorted_insertionSort distLe _
      · rw [if_neg h]
        exact List.sorted_insertionSort distLe _
    intro i j hij
    exact List.pairwise_iff_get.mp hs i j hij

/-- Witness for claim C9 at a concrete completion order whose resolved list
has at least two entries. -/
theorem output_sorted_ascending_by_distance_witness :
    ((searchResolve c9Arrivals).getD 0 pP1).distance ≤
      ((searchResolve c9Arrivals).getD 1 pP1).distance := by
  have h := (output_sorted_ascending_by_distance c9Arrivals defaultCenter stInit
      c9Arrivals c9Arrivals).1 ⟨0, by decide⟩ ⟨1, by decide⟩ (by decide)
  rw [List.getD_eq_get (searchResolve c9Arrivals) pP1 (by decide),
    List.getD_eq_get (searchResolve c9Arrivals) pP1 (by decide)]
  exact h

/-- Claim C10: the three haversine getDistance implementations agree: the
NearbySafePlaces and GoogleMap copies (radius 6371e3, meters) compute
identical values on every coordinate pair, and the Dashboard copy
(radius 6371, kilometers) equals that value divided by 1000. -/
theorem haversine_implementations_agree (lat1 lon1 lat2 lon2 : ℝ) :
    GoogleMap.getDistance ⟨lat1, lon1⟩ ⟨lat2, lon2⟩ =
      NearbySafePlaces.getDistance ⟨lat1, lon1⟩ ⟨lat2, lon2⟩ ∧
    Dashboard.getDistance lat1 lon1 lat2 lon2 =
      NearbySafePlaces.getDistance ⟨lat1, lon1⟩ ⟨lat2, lon2⟩ / 1000 := by
  constructor
  · rfl
  · simp only [Dashboard.getDistance, Dashboard.toRad, NearbySafePlaces.getDistance]
    ring
